import Mathlib

/-!
# Verification of the persona-driven document relevance pipeline

Shallow embedding of the scoring and section-extraction pipeline
(`src/language_detector.py`, `src/config.py`, `src/relevance_analyzer.py`,
`src/persona_processor.py`).

Modelling conventions:
* Python `str` is Lean `String` (a wrapper around `List Char`); `str.strip`,
  `str.lower`, slicing, `in` (substring test) and `str.join` are re-implemented
  over the character list (`pyStrip`, `pyLower`, `pySlice`, `pyInStr`,
  `pyJoin`) because the corresponding core-library functions are byte-based.
  `Char.toLower` lowers only ASCII letters; every concrete text used in the
  development is ASCII, and no proof depends on lowering non-ASCII letters.
* Python floats are modelled as `ℚ`.
* Python dicts with string keys are association lists (`List (String × _)`);
  `dict.update` is `dictUpdate`, `dict.get k d` is `(l.lookup k).getD d`.
* External collaborators are parameters: the `langdetect`/`langid` libraries
  are optional functions inside `LangDetector` (`none` = library unavailable /
  call raised), the sentence-transformer model and NLTK `sent_tokenize` are
  fields of `RelevanceAnalyzer`, as is the decimal rendering of floats used
  only inside human-readable reasoning strings.
* The cooperative time budget (`check_time_limit`) is modelled by a boolean
  parameter `time_ok` giving the (constant) outcome of the check during the
  modelled call; `time_ok = true` is the in-budget behaviour.
* Python's `sorted(..., key=..., reverse=True)` is the stable descending
  insertion sort `pySortedDesc` (stable sorting by a key is a unique
  function, so any stable implementation is an exact model).
-/

set_option maxRecDepth 8000

/-- Python `str.strip()`: drop leading and trailing whitespace. -/
def pyStrip (s : String) : String :=
  ⟨((s.data.dropWhile Char.isWhitespace).reverse.dropWhile Char.isWhitespace).reverse⟩

/-- Python `str.lower()` (ASCII letters; see module comment). -/
def pyLower (s : String) : String := ⟨s.data.map Char.toLower⟩

/-- Python `s[:n]`: the first `n` characters. -/
def pySlice (s : String) (n : Nat) : String := ⟨s.data.take n⟩

/-- Whether `needle` occurs as a contiguous sublist of `hay`. -/
def listContainsSub (needle : List Char) : List Char → Bool
  | [] => needle.isEmpty
  | c :: cs => needle.isPrefixOf (c :: cs) || listContainsSub needle cs

/-- Python `needle in hay` on strings (substring test). -/
def pyInStr (needle hay : String) : Bool := listContainsSub needle.data hay.data

/-- Python `sep.join(l)`. -/
def pyJoin (sep : String) : List String → String
  | [] => ""
  | a :: as => as.foldl (fun acc x => acc ++ sep ++ x) a

/-- Round half to even (Python `round` tie-breaking). -/
def python_round_half_even (q : ℚ) : ℤ :=
  if q - ⌊q⌋ < 1/2 then ⌊q⌋
  else if (1 : ℚ)/2 < q - ⌊q⌋ then ⌊q⌋ + 1
  else if ⌊q⌋ % 2 = 0 then ⌊q⌋ else ⌊q⌋ + 1

/-- Python `round(q, 2)`. -/
def pyRound2 (q : ℚ) : ℚ := (python_round_half_even (q * 100) : ℚ) / 100

/-!
## config.py
-/

/-- Number of maximal runs of characters satisfying `p`: the number of
`re.findall` matches of a pattern of the form `[class]+`. -/
def countRuns (p : Char → Bool) (s : List Char) : Nat :=
  (s.foldl
    (fun (acc : Nat × Bool) c =>
      if p c then (if acc.2 then acc else (acc.1 + 1, true)) else (acc.1, false))
    (0, false)).1

/-- Character class of the English pattern (ASCII letters and whitespace). -/
def enPatternChar (c : Char) : Bool := c.isAlpha || c.isWhitespace

/-- Character class of the Spanish pattern. -/
def esPatternChar (c : Char) : Bool :=
  c.isAlpha || c.isWhitespace ||
    ['á', 'é', 'í', 'ó', 'ú', 'ñ', 'ü', 'Á', 'É', 'Í', 'Ó', 'Ú', 'Ñ', 'Ü'].contains c

/-- Character class of the French pattern. -/
def frPatternChar (c : Char) : Bool :=
  c.isAlpha || c.isWhitespace ||
    ['à', 'â', 'ä', 'é', 'è', 'ê', 'ë', 'ï', 'î', 'ô', 'ö', 'ù', 'û', 'ü', 'ÿ', 'ç',
     'À', 'Â', 'Ä', 'É', 'È', 'Ê', 'Ë', 'Ï', 'Î', 'Ô', 'Ö', 'Ù', 'Û', 'Ü', 'Ÿ', 'Ç'].contains c

/-- Character class of the German pattern. -/
def dePatternChar (c : Char) : Bool :=
  c.isAlpha || c.isWhitespace || ['ä', 'ö', 'ü', 'ß', 'Ä', 'Ö', 'Ü'].contains c

/-- Character class of the Hindi (Devanagari) pattern. -/
def hiPatternChar (c : Char) : Bool :=
  (0x900 ≤ c.toNat && c.toNat ≤ 0x97F) || c.isWhitespace

/-- Character class of the Italian pattern. -/
def itPatternChar (c : Char) : Bool :=
  c.isAlpha || c.isWhitespace ||
    ['à', 'è', 'é', 'ì', 'í', 'î', 'ò', 'ó', 'ù',
     'À', 'È', 'É', 'Ì', 'Í', 'Î', 'Ò', 'Ó', 'Ù'].contains c

/-- Character class of the Portuguese pattern. -/
def ptPatternChar (c : Char) : Bool :=
  c.isAlpha || c.isWhitespace ||
    ['à', 'á', 'â', 'ã', 'ç', 'é', 'ê', 'í', 'ó', 'ô', 'õ', 'ú',
     'À', 'Á', 'Â', 'Ã', 'Ç', 'É', 'Ê', 'Í', 'Ó', 'Ô', 'Õ', 'Ú'].contains c

/-- Table `LANGUAGE_PATTERNS` of config.py, each regex as its character class. -/
def LANGUAGE_PATTERNS : List (String × (Char → Bool)) :=
  [("en", enPatternChar), ("es", esPatternChar), ("fr", frPatternChar),
   ("de", dePatternChar), ("hi", hiPatternChar), ("it", itPatternChar),
   ("pt", ptPatternChar)]

/-- Table `SECTION_KEYWORDS` of config.py. -/
def SECTION_KEYWORDS : List (String × List String) :=
  [("en", ["introduction", "methodology", "results", "discussion", "conclusion"]),
   ("es", ["introducción", "metodología", "resultados", "discusión", "conclusión"]),
   ("fr", ["introduction", "méthodologie", "résultats", "discussion", "conclusion"]),
   ("de", ["einführung", "methodik", "ergebnisse", "diskussion", "schlussfolgerung"]),
   ("hi", ["परिचय", "पद्धति", "परिणाम", "चर्चा", "निष्कर्ष"])]

/-- Table `TECHNICAL_TERMS` of config.py. -/
def TECHNICAL_TERMS : List (String × List String) :=
  [("en", ["analysis", "method", "process", "system", "data", "result"]),
   ("es", ["análisis", "método", "proceso", "sistema", "datos", "resultado"]),
   ("fr", ["analyse", "méthode", "processus", "système", "données", "résultat"]),
   ("de", ["analyse", "methode", "prozess", "system", "daten", "ergebnis"]),
   ("hi", ["विश्लेषण", "विधि", "प्रक्रिया", "सिस्टम", "डेटा", "परिणाम"])]

/-- One persona's entry of `PERSONA_KNOWLEDGE`. -/
structure PersonaInfo where
  keywords : List (String × List (String × ℚ))
  sections : List String
  focus_areas : List String
  content_weights : List (String × ℚ)

/-- One job's entry of `JOB_PATTERNS`. -/
structure JobInfo where
  keywords : List (String × List (String × ℚ))
  focus : String
  content_weights : List (String × ℚ)

/-- Table `PERSONA_KNOWLEDGE` of config.py. -/
def PERSONA_KNOWLEDGE : List (String × PersonaInfo) :=
  [("researcher",
    { keywords :=
        [("en",
          [("methodology", 10), ("hypothesis", 9), ("experiment", 9), ("analysis", 8),
           ("findings", 8), ("conclusion", 8), ("literature review", 10), ("data", 7),
           ("statistics", 8), ("results", 8), ("discussion", 8), ("research question", 9),
           ("sampling", 7), ("variables", 7), ("correlation", 8), ("significance", 8),
           ("peer review", 9), ("citation", 7), ("references", 7), ("abstract", 8),
           ("background", 7), ("objectives", 8), ("limitations", 7), ("future work", 7)]),
         ("es",
          [("metodología", 10), ("hipótesis", 9), ("experimento", 9), ("análisis", 8),
           ("hallazgos", 8), ("conclusión", 8), ("revisión literaria", 10), ("datos", 7),
           ("estadísticas", 8), ("resultados", 8), ("discusión", 8), ("pregunta investigación", 9),
           ("muestreo", 7), ("variables", 7), ("correlación", 8), ("significancia", 8),
           ("revisión pares", 9), ("cita", 7), ("referencias", 7), ("resumen", 8),
           ("antecedentes", 7), ("objetivos", 8), ("limitaciones", 7), ("trabajo futuro", 7)])]
      sections := ["introduction", "methodology", "results", "discussion", "conclusion",
                   "abstract", "literature review"]
      focus_areas := ["research design", "data analysis", "statistical methods",
                      "findings interpretation"]
      content_weights := [("technical_depth", 0.9), ("methodology_focus", 0.8),
                          ("data_analysis", 0.9), ("conceptual_framework", 0.7)] }),
   ("student",
    { keywords :=
        [("en",
          [("concept", 9), ("definition", 9), ("example", 8), ("explanation", 8),
           ("theory", 8), ("principle", 8), ("formula", 8), ("step-by-step", 9),
           ("tutorial", 9), ("practice", 8), ("exercise", 8), ("summary", 8),
           ("key points", 9), ("learning objectives", 9), ("overview", 7),
           ("introduction", 7), ("basics", 8), ("fundamentals", 8), ("guide", 8),
           ("how to", 8), ("tips", 7), ("common mistakes", 8), ("review", 7)])]
      sections := ["introduction", "overview", "examples", "summary", "key concepts",
                   "practice problems"]
      focus_areas := ["fundamental concepts", "practical examples", "step-by-step explanations"]
      content_weights := [("clarity", 0.9), ("examples", 0.8), ("step_by_step", 0.8),
                          ("basics_focus", 0.9)] }),
   ("analyst",
    { keywords :=
        [("en",
          [("trend", 9), ("pattern", 9), ("insight", 9), ("analysis", 8),
           ("comparison", 8), ("benchmark", 8), ("metric", 8), ("kpi", 9),
           ("performance", 8), ("evaluation", 8), ("assessment", 8), ("recommendation", 9),
           ("forecast", 9), ("projection", 8), ("market", 8), ("industry", 7),
           ("competitive", 8), ("strategy", 8), ("optimization", 8), ("efficiency", 7),
           ("roi", 9), ("growth", 8), ("opportunity", 8), ("risk", 8)])]
      sections := ["executive summary", "analysis", "findings", "recommendations", "conclusions"]
      focus_areas := ["data interpretation", "trend analysis", "business insights"]
      content_weights := [("data_driven", 0.9), ("insights", 0.9), ("actionable", 0.8),
                          ("strategic", 0.8)] })]

/-- Table `JOB_PATTERNS` of config.py. -/
def JOB_PATTERNS : List (String × JobInfo) :=
  [("literature_review",
    { keywords :=
        [("en",
          [("literature", 10), ("review", 9), ("research", 8), ("study", 8),
           ("paper", 7), ("publication", 7), ("methodology", 8), ("findings", 8),
           ("conclusion", 8), ("citation", 7), ("references", 7), ("background", 7),
           ("existing work", 8), ("previous research", 8), ("gap", 8), ("contribution", 7)])]
      focus := "comprehensive overview of existing research"
      content_weights := [("comprehensive", 0.9), ("analytical", 0.8), ("synthesis", 0.8),
                          ("critical", 0.7)] }),
   ("exam_preparation",
    { keywords :=
        [("en",
          [("concept", 9), ("definition", 9), ("formula", 8), ("example", 8),
           ("practice", 8), ("key points", 9), ("summary", 8), ("review", 8),
           ("important", 8), ("essential", 8), ("core", 8), ("fundamental", 8),
           ("test", 7), ("exam", 7), ("question", 7), ("answer", 7)])]
      focus := "essential concepts and examples for testing"
      content_weights := [("essential", 0.9), ("clear", 0.8), ("memorable", 0.7),
                          ("practical", 0.8)] })]

/-!
## language_detector.py
-/

/-- The two optional external detection libraries consumed by
`LanguageDetector`; `none` at the outer level models an unavailable library,
`none` as a result models a raised exception. -/
structure LangDetector where
  langdetect : Option (String → Option String)
  langid : Option (String → Option String)

/-- Python `max(lang_scores, key=lang_scores.get)` over an insertion-ordered
dict: the first key attaining the maximal value. -/
def pyMaxByValue (l : List (String × ℚ)) : Option String :=
  (l.foldl
    (fun acc kv =>
      match acc with
      | none => some kv
      | some best => if best.2 < kv.2 then some kv else some best)
    none).map Prod.fst

/-- Model of `LanguageDetector._pattern_based_detection`. -/
def pattern_based_detection (text : String) : String :=
  let text_lower := pyLower text
  let lang_scores := LANGUAGE_PATTERNS.filterMap (fun lp =>
    let match_count := countRuns lp.2 text_lower.data
    if 0 < match_count then some (lp.1, (match_count : ℚ) / (text_lower.length : ℚ)) else none)
  match pyMaxByValue lang_scores with
  | some lang => lang
  | none => "en"

/-- Model of `LanguageDetector.detect_language`. -/
def detect_language (d : LangDetector) (text : String) : String :=
  if text = "" ∨ (pyStrip text).length < 10 then "en"
  else
    match d.langdetect.bind (fun f => f text) with
    | some lang => lang
    | none =>
      match d.langid.bind (fun f => f text) with
      | some lang => lang
      | none => pattern_based_detection text

/-!
## relevance_analyzer.py
-/

/-- The `RelevanceAnalyzer` with its external collaborators as fields:
the language detector's backing libraries, NLTK `sent_tokenize`, the optional
sentence-transformer (mapping the pair of encoded texts to their cosine
similarity, `none` inside = the call raised) and Python's float rendering
(used only inside reasoning strings). -/
structure RelevanceAnalyzer where
  detector : LangDetector
  sentTok : String → List String
  sentenceModel : Option (String → String → Option ℚ)
  showNum : ℚ → String

/-- Python `dict.update`: entries of `base` with values overridden by `upd`
on key collision, followed by the entries of `upd` with fresh keys. -/
def dictUpdate (base upd : List (String × ℚ)) : List (String × ℚ) :=
  (base.map (fun kv => ((kv.1 : String), ((upd.lookup kv.1).getD kv.2 : ℚ))))
    ++ upd.filter (fun kv => (base.lookup kv.1).isNone)

/-- Model of `RelevanceAnalyzer.get_keywords_for_language`. -/
def get_keywords_for_language (persona job language : String) : List (String × ℚ) :=
  let persona_keywords := ((PERSONA_KNOWLEDGE.lookup persona).map PersonaInfo.keywords).getD []
  let job_keywords := ((JOB_PATTERNS.lookup job).map JobInfo.keywords).getD []
  let persona_lang_keywords := (persona_keywords.lookup language).getD
    ((persona_keywords.lookup "en").getD [])
  let job_lang_keywords := (job_keywords.lookup language).getD
    ((job_keywords.lookup "en").getD [])
  dictUpdate (dictUpdate [] persona_lang_keywords) job_lang_keywords

/-- Component 1 of the score (lines 36-45 of relevance_analyzer.py):
summed weights of matched keywords, normalized by the total weight
(1 when the table is empty) and scaled to 40. -/
def keyword_component (keywords : List (String × ℚ)) (text_lower : String) : ℚ :=
  let keyword_score := keywords.foldl
    (fun acc kv => if pyInStr kv.1 text_lower then acc + kv.2 else acc) 0
  let max_keyword_score := if keywords.isEmpty then 1
    else keywords.foldl (fun acc kv => acc + kv.2) 0
  keyword_score / max_keyword_score * 40

/-- Component 2 (lines 47-59): cosine similarity times 30 when the sentence
model is available and does not raise, otherwise 0. -/
def semantic_component (A : RelevanceAnalyzer) (text reference_text : String) : ℚ :=
  match A.sentenceModel with
  | none => 0
  | some f =>
    match f text reference_text with
    | none => 0
    | some similarity => similarity * 30

/-- Model of `RelevanceAnalyzer._calculate_structure_score`. -/
def calculate_structure_score (text_lower language : String) : ℚ :=
  let lang_sections := (SECTION_KEYWORDS.lookup language).getD
    ((SECTION_KEYWORDS.lookup "en").getD [])
  let structure_score := lang_sections.foldl
    (fun acc sec => if pyInStr sec text_lower then acc + 5 else acc) (0 : ℚ)
  min structure_score 20

/-- Model of `RelevanceAnalyzer._calculate_quality_score`. -/
def calculate_quality_score (A : RelevanceAnalyzer) (text language persona : String) : ℚ :=
  (if 50 ≤ text.length ∧ text.length ≤ 500 then (5 : ℚ)
   else if 20 ≤ text.length ∧ text.length ≤ 1000 then 3 else 0)
  + (if 1 ≤ (A.sentTok text).length ∧ (A.sentTok text).length ≤ 5 then (3 : ℚ) else 0)
  + (if (persona = "researcher" ∨ persona = "developer" ∨ persona = "analyst")
        ∧ ((TECHNICAL_TERMS.lookup language).getD ((TECHNICAL_TERMS.lookup "en").getD [])).any
            (fun term => pyInStr term (pyLower text))
     then (2 : ℚ) else 0)

/-- Model of `RelevanceAnalyzer.calculate_semantic_relevance_multilingual`. -/
def calculate_semantic_relevance_multilingual
    (A : RelevanceAnalyzer) (text persona job : String) : ℚ :=
  if text = "" ∨ (pyStrip text).length < 10 then 0
  else
    let detected_lang := detect_language A.detector text
    let text_lower := pyLower text
    let keywords := get_keywords_for_language persona job detected_lang
    let reference_text := persona ++ " " ++ job ++ " " ++ pyJoin " " (keywords.map Prod.fst)
    let relevance_score :=
      keyword_component keywords text_lower
      + semantic_component A text reference_text
      + calculate_structure_score text_lower detected_lang
      + calculate_quality_score A text detected_lang persona
    min 100 (max 0 relevance_score)

/-- Stable descending insertion into a list sorted descending by `key`:
the inserted element goes after every strictly greater element and before
equal ones. -/
def insertionDesc (key : α → ℚ) (x : α) : List α → List α
  | [] => [x]
  | y :: ys => if key x < key y then y :: insertionDesc key x ys else x :: y :: ys

/-- Python `sorted(l, key=key, reverse=True)`: the stable descending sort. -/
def pySortedDesc (key : α → ℚ) (l : List α) : List α := l.foldr (insertionDesc key) []

/-- Model of `RelevanceAnalyzer.refine_content_for_persona`. -/
def refine_content_for_persona (A : RelevanceAnalyzer) (content persona job : String) : String :=
  let sentences := A.sentTok content
  let scored_sentences := sentences.map
    (fun s => (s, calculate_semantic_relevance_multilingual A s persona job))
  let sorted_sentences := pySortedDesc (fun x => x.2) scored_sentences
  let max_sentences := if persona = "researcher" ∨ persona = "analyst" then 4 else 3
  let selected_sentences :=
    ((sorted_sentences.take max_sentences).filter (fun x => decide (20 < x.2))).map Prod.fst
  if selected_sentences.isEmpty then pySlice content 300 else pyJoin " " selected_sentences

/-!
## document_extractor.py / persona_processor.py data model
-/

/-- Bounding box of a text line (`span["bbox"]`). -/
structure BBox where
  x0 : ℚ
  y0 : ℚ
  x1 : ℚ
  y1 : ℚ
deriving Inhabited, DecidableEq

/-- A text block produced by the Document Content Extractor. -/
structure TextBlock where
  text : String
  font_size : ℚ
  is_bold : Bool
  font_name : String
  bbox : BBox
  language : String
deriving Inhabited, DecidableEq

/-- One extracted page: its 1-indexed number and the blocks classified as
headings and as body text. -/
structure PageContent where
  page_number : Nat
  headings : List TextBlock
  body_text : List TextBlock
deriving Inhabited

/-- Extracted document content: the page list and the filename stored in its
metadata by the orchestrator (`none` models a missing key, read back with
default `"Unknown"`). -/
structure DocContent where
  pages : List PageContent
  filename : Option String

/-- A candidate section record as built by
`extract_relevant_sections_multilingual` (persona_processor.py lines 77-86
and 99-108). -/
structure Section where
  document : String
  page : Nat
  section_title : String
  content : String
  relevance_score : ℚ
  font_size : ℚ
  is_bold : Bool
  language : String
deriving Inhabited, DecidableEq

/-- A subsection record as built by `create_subsection_analysis_advanced`
(persona_processor.py lines 129-137); note the record carries no language
key. -/
structure Subsection where
  document : String
  page : Nat
  section_title : String
  refined_text : String
  relevance_score : ℚ
  persona_focus : List String
  job_alignment : String
deriving Inhabited, DecidableEq

/-- Model of `DocumentExtractor._find_associated_content`. -/
def find_associated_content (heading : TextBlock) (body_text : List TextBlock)
    (all_pages : List PageContent) (current_page : Nat) : String :=
  let associated_content :=
    (body_text.filter (fun tb => decide (heading.bbox.y0 < tb.bbox.y0))).map TextBlock.text
  let associated_content :=
    if associated_content.isEmpty ∧ current_page < all_pages.length then
      (((all_pages.get? current_page).getD default).body_text).map TextBlock.text
    else associated_content
  pyJoin " " (associated_content.take 3)

/-!
## persona_processor.py operations
-/

/-- Model of `AdvancedPersonaIntelligence.extract_relevant_sections_multilingual`.
`time_ok` is the outcome of `check_time_limit` during this call (a `false`
breaks each inner loop before its first iteration, see module comment). -/
def extract_relevant_sections_multilingual (A : RelevanceAnalyzer) (time_ok : Bool)
    (content : DocContent) (persona job : String) : List Section :=
  content.pages.foldl
    (fun acc page_content =>
      acc
      ++ (if time_ok then
            page_content.headings.filterMap (fun heading =>
              let associated_content := find_associated_content heading
                page_content.body_text content.pages page_content.page_number
              let relevance_score := calculate_semantic_relevance_multilingual A
                (heading.text ++ " " ++ associated_content) persona job
              if 15 < relevance_score then
                some { document := content.filename.getD "Unknown"
                       page := page_content.page_number
                       section_title := heading.text
                       content := associated_content
                       relevance_score := pyRound2 relevance_score
                       font_size := heading.font_size
                       is_bold := heading.is_bold
                       language := heading.language }
              else none)
          else [])
      ++ (if time_ok then
            page_content.body_text.filterMap (fun text_block =>
              let relevance_score := calculate_semantic_relevance_multilingual A
                text_block.text persona job
              if 20 < relevance_score then
                some { document := content.filename.getD "Unknown"
                       page := page_content.page_number
                       section_title := "Content from page " ++ toString page_content.page_number
                       content := text_block.text
                       relevance_score := pyRound2 relevance_score
                       font_size := text_block.font_size
                       is_bold := text_block.is_bold
                       language := text_block.language }
              else none)
          else []))
    []

/-- Model of `AdvancedPersonaIntelligence._get_persona_focus_areas`. -/
def get_persona_focus_areas (persona : String) : List String :=
  ((PERSONA_KNOWLEDGE.lookup persona).map PersonaInfo.focus_areas).getD []

/-- Model of `AdvancedPersonaIntelligence._get_job_alignment`. -/
def get_job_alignment (job : String) : String :=
  ((JOB_PATTERNS.lookup job).map JobInfo.focus).getD "General content"

/-- Model of `AdvancedPersonaIntelligence.create_subsection_analysis_advanced`. -/
def create_subsection_analysis_advanced (A : RelevanceAnalyzer) (time_ok : Bool)
    (sections : List Section) (persona job : String) : List Subsection :=
  if time_ok then
    sections.filterMap (fun sec =>
      if sec.content = "" ∨ (pyStrip sec.content).length < 20 then none
      else
        let refined_text := refine_content_for_persona A sec.content persona job
        if refined_text = "" then none
        else
          some { document := sec.document
                 page := sec.page
                 section_title := sec.section_title
                 refined_text := refined_text
                 relevance_score := sec.relevance_score
                 persona_focus := get_persona_focus_areas persona
                 job_alignment := get_job_alignment job })
  else []

/-- Model of `AdvancedPersonaIntelligence.rank_and_filter_results_advanced`. -/
def rank_and_filter_results_advanced (sections : List Section)
    (subsections : List Subsection) : List Section × List Subsection :=
  let ranked_sections := pySortedDesc (fun x => x.relevance_score) sections
  let filtered_sections := ranked_sections.filter
    (fun sec => decide (50 ≤ sec.content.length ∧ sec.content.length ≤ 2000))
  let ranked_subsections := pySortedDesc (fun x => x.relevance_score) subsections
  let filtered_subsections := ranked_subsections.filter
    (fun sub => decide (30 ≤ sub.refined_text.length ∧ sub.refined_text.length ≤ 1000))
  (filtered_sections.take 10, filtered_subsections.take 15)

/-- The view of a section or subsection record taken by
`generate_selection_reasoning` through `dict.get`: `content` defaults to `""`
and `language` to `"en"` when the record has no such key. -/
structure RecordView where
  section_title : String
  relevance_score : ℚ
  content : String
  language : String

/-- The `RecordView` of a `Section` record (all four keys present). -/
def Section.toView (s : Section) : RecordView :=
  { section_title := s.section_title, relevance_score := s.relevance_score,
    content := s.content, language := s.language }

/-- The `RecordView` of a `Subsection` record: it has no `content` and no
`language` key, so the `dict.get` defaults `""` and `"en"` apply. -/
def Subsection.toView (s : Subsection) : RecordView :=
  { section_title := s.section_title, relevance_score := s.relevance_score,
    content := "", language := "en" }

/-- Model of `RelevanceAnalyzer.generate_selection_reasoning`; `showNum` renders the
score the way Python interpolates a float into an f-string. -/
def generate_selection_reasoning (A : RelevanceAnalyzer) (sec : RecordView)
    (persona job : String) : String :=
  let keywords := get_keywords_for_language persona job sec.language
  let title_lower := pyLower sec.section_title
  let content_lower := pyLower sec.content
  let matched_keywords := (keywords.filter
    (fun kv => pyInStr kv.1 title_lower || pyInStr kv.1 content_lower)).map Prod.fst
  let reasons : List String :=
    (if matched_keywords.isEmpty then []
     else ["Contains relevant keywords: " ++ pyJoin ", " (matched_keywords.take 3)])
  let score_str := A.showNum sec.relevance_score
  let lang_reasons : List (String × String) :=
    [("en", "Content in English with relevance score " ++ score_str),
     ("es", "Contenido en español con puntuación de relevancia " ++ score_str),
     ("fr", "Contenu en français avec score de pertinence " ++ score_str),
     ("de", "Inhalt auf Deutsch mit Relevanzbewertung " ++ score_str),
     ("hi", "हिंदी में सामग्री जिसकी प्रासंगिकता स्कोर " ++ score_str ++ " है")]
  let reasons := reasons ++ [(lang_reasons.lookup sec.language).getD
    ("Content in English with relevance score " ++ score_str)]
  let reasons := reasons ++
    (if 100 < sec.content.length then ["Contains substantial content for detailed analysis"]
     else [])
  let reasons := reasons ++
    (if 50 < sec.relevance_score then
       ["High relevance score (" ++ score_str ++ ") indicates strong semantic alignment"]
     else if 30 < sec.relevance_score then
       ["Moderate relevance score (" ++ score_str ++ ") shows good content value"]
     else [])
  pyJoin "; " reasons

/-- The serialized shape of one `subsection_analysis` entry
(persona_processor.py lines 243-253). -/
structure SubsectionOut where
  document : String
  page : Nat
  section_title : String
  refined_text : String
  relevance_score : ℚ
  selection_reasoning : String
  persona_focus : List String
  job_alignment : String
  language : String

/-- The `subsection_analysis` serialization loop of
`process_documents_multilingual` (persona_processor.py lines 238-253).
The `language` field is `subsection.get('language', 'en')`; a `Subsection`
record carries no language key, so the default applies. -/
def serialize_subsection_analysis (A : RelevanceAnalyzer) (persona job : String)
    (ranked_subsections : List Subsection) : List SubsectionOut :=
  ranked_subsections.map (fun subsection =>
    { document := subsection.document
      page := subsection.page
      section_title := subsection.section_title
      refined_text := subsection.refined_text
      relevance_score := subsection.relevance_score
      selection_reasoning := generate_selection_reasoning A subsection.toView persona job
      persona_focus := subsection.persona_focus
      job_alignment := subsection.job_alignment
      language := "en" })

/-!
## Auxiliary definitions used to state the claims
-/

/-- The number of non-whitespace characters of a string: the measure used by
the wording "shorter than 10 non-whitespace characters" of the short-text
claim about the language detector. -/
def nonWsCount (s : String) : Nat := (s.data.filter (fun c => !c.isWhitespace)).length

/-- Spec-side definition (merged-keyword-table claim): the persona's keyword
map for the detected language, falling back to that persona's English map
when the detected language is absent. -/
def persona_language_keywords_spec (persona language : String) : List (String × ℚ) :=
  let persona_keywords := ((PERSONA_KNOWLEDGE.lookup persona).map PersonaInfo.keywords).getD []
  (persona_keywords.lookup language).getD ((persona_keywords.lookup "en").getD [])

/-- Spec-side definition (merged-keyword-table claim): the job's keyword map
for the detected language, with the same English fallback rule. -/
def job_language_keywords_spec (job language : String) : List (String × ℚ) :=
  let job_keywords := ((JOB_PATTERNS.lookup job).map JobInfo.keywords).getD []
  (job_keywords.lookup language).getD ((job_keywords.lookup "en").getD [])

/-- The scenario text of the methodology-scoring claim. -/
def methodology_text : String :=
  "Methodology: This study used a randomized controlled experiment with statistical analysis of variance."

/-- A concrete analyzer instance used by witnesses: `langdetect` present and
returning `"en"`, `langid` unavailable, `sent_tokenize` returning the whole
text as one sentence, sentence-transformer unavailable. -/
def A0 : RelevanceAnalyzer :=
  { detector := { langdetect := some (fun _ => some "en"), langid := none }
    sentTok := fun s => [s]
    sentenceModel := none
    showNum := fun _ => "" }

/-!
## Helper lemmas
-/

theorem string_eq_empty_iff (s : String) : s = "" ↔ s.data = [] := by
  constructor
  · intro h; subst h; rfl
  · intro h; cases s with
    | mk d => cases h; rfl

theorem length_pyJoin_cons (sep a : String) (as : List String) :
    a.length ≤ (pyJoin sep (a :: as)).length := by
  show a.length ≤ (as.foldl (fun acc x => acc ++ sep ++ x) a).length
  induction as generalizing a with
  | nil => exact le_refl _
  | cons x xs ih =>
    refine le_trans ?_ (ih (a ++ sep ++ x))
    rw [String.length_append, String.length_append]
    omega

theorem pySlice_ne_empty {s : String} (h : s ≠ "") (n : Nat) (hn : n ≠ 0) :
    pySlice s n ≠ "" := by
  intro hc
  rw [string_eq_empty_iff] at hc
  rw [show (pySlice s n).data = s.data.take n from rfl, List.take_eq_nil_iff] at hc
  rcases hc with hc | hc
  · exact hn hc
  · exact h ((string_eq_empty_iff s).mpr hc)

theorem score_eq_zero_of_short {A : RelevanceAnalyzer} {text : String}
    (persona job : String) (h : text = "" ∨ (pyStrip text).length < 10) :
    calculate_semantic_relevance_multilingual A text persona job = 0 := by
  unfold calculate_semantic_relevance_multilingual
  rw [if_pos h]

theorem text_ne_empty_of_score_pos {A : RelevanceAnalyzer} {text persona job : String}
    (h : 0 < calculate_semantic_relevance_multilingual A text persona job) : text ≠ "" := by
  intro hc
  rw [score_eq_zero_of_short persona job (Or.inl hc)] at h
  exact lt_irrefl 0 h

theorem filterMap_ite_eq_filter_map {α β : Type} (P : α → Prop) [DecidablePred P]
    (f : α → β) (l : List α) :
    (l.filterMap (fun a => if P a then some (f a) else none))
      = (l.filter (fun a => decide (P a))).map f := by
  induction l with
  | nil => rfl
  | cons a t ih =>
    by_cases h : P a <;> simp [List.filterMap_cons, List.filter_cons, h, ih]

theorem foldl_add_if_eq_filter_sum {α : Type} (p : α → Bool) (w : α → ℚ)
    (l : List α) (c : ℚ) :
    l.foldl (fun acc kv => if p kv then acc + w kv else acc) c
      = c + ((l.filter p).map w).sum := by
  induction l generalizing c with
  | nil => simp
  | cons kv t ih =>
    by_cases h : p kv
    · simp only [List.foldl_cons, List.filter_cons, h, if_true, ih, List.map_cons,
        List.sum_cons]
      ring
    · simp only [List.foldl_cons, List.filter_cons, h, if_false, ih]
      simp [h]

theorem foldl_add_eq_sum {α : Type} (w : α → ℚ) (l : List α) (c : ℚ) :
    l.foldl (fun acc kv => acc + w kv) c = c + (l.map w).sum := by
  induction l generalizing c with
  | nil => simp
  | cons kv t ih => simp only [List.foldl_cons, ih, List.map_cons, List.sum_cons]; ring

theorem lookup_append_some {β : Type} {l₁ : List (String × β)} (l₂ : List (String × β))
    {k : String} {v : β} (h : l₁.lookup k = some v) : (l₁ ++ l₂).lookup k = some v := by
  induction l₁ with
  | nil => simp [List.lookup] at h
  | cons kv t ih =>
    by_cases hk : k = kv.1
    · subst hk
      simpa [List.lookup] using h
    · simp only [List.lookup, beq_eq_false_iff_ne.mpr hk] at h
      simpa [List.lookup, beq_eq_false_iff_ne.mpr hk] using ih h

theorem lookup_append_none {β : Type} {l₁ : List (String × β)} (l₂ : List (String × β))
    {k : String} (h : l₁.lookup k = none) : (l₁ ++ l₂).lookup k = l₂.lookup k := by
  induction l₁ with
  | nil => rfl
  | cons kv t ih =>
    by_cases hk : k = kv.1
    · subst hk
      simp [List.lookup] at h
    · simp only [List.lookup, beq_eq_false_iff_ne.mpr hk] at h
      simpa [List.lookup, beq_eq_false_iff_ne.mpr hk] using ih h

theorem lookup_map_override {β : Type} (base upd : List (String × β)) (k : String) :
    (base.map (fun kv => ((kv.1 : String), ((upd.lookup kv.1).getD kv.2 : β)))).lookup k
      = (base.lookup k).map (fun v => (upd.lookup k).getD v) := by
  induction base with
  | nil => simp [List.lookup]
  | cons kv t ih =>
    by_cases h : k = kv.1
    · subst h; simp [List.lookup, ih]
    · simp [List.lookup, beq_eq_false_iff_ne.mpr h, ih]

theorem lookup_filter_isNone {β : Type} (base upd : List (String × β)) (k : String)
    (h : base.lookup k = none) :
    (upd.filter (fun kv => (base.lookup kv.1).isNone)).lookup k = upd.lookup k := by
  induction upd with
  | nil => rfl
  | cons kv t ih =>
    by_cases hk : k = kv.1
    · subst hk
      simp [List.filter_cons, h, List.lookup, ih]
    · by_cases hb : (base.lookup kv.1).isNone
      · simp [List.filter_cons, hb, List.lookup, beq_eq_false_iff_ne.mpr hk, ih]
      · simp [List.filter_cons, hb, List.lookup, beq_eq_false_iff_ne.mpr hk, ih]

theorem lookup_dictUpdate (base upd : List (String × ℚ)) (k : String) :
    (dictUpdate base upd).lookup k
      = match base.lookup k with
        | some v => some ((upd.lookup k).getD v)
        | none => upd.lookup k := by
  unfold dictUpdate
  cases h : base.lookup k with
  | some v =>
    rw [lookup_append_some _ (by rw [lookup_map_override, h]; rfl)]
  | none =>
    rw [lookup_append_none _ (by rw [lookup_map_override, h]; rfl),
      lookup_filter_isNone base upd k h]

theorem mem_insertionDesc {α : Type} (key : α → ℚ) (x z : α) (l : List α) :
    z ∈ insertionDesc key x l ↔ z = x ∨ z ∈ l := by
  induction l with
  | nil => simp [insertionDesc]
  | cons y ys ih =>
    by_cases h : key x < key y
    · simp only [insertionDesc, if_pos h, List.mem_cons, ih]
      tauto
    · simp only [insertionDesc, if_neg h, List.mem_cons]

theorem pairwise_insertionDesc {α : Type} (key : α → ℚ) (x : α) {l : List α}
    (h : l.Pairwise (fun a b => key b ≤ key a)) :
    (insertionDesc key x l).Pairwise (fun a b => key b ≤ key a) := by
  induction l with
  | nil => simp [insertionDesc]
  | cons y ys ih =>
    rcases List.pairwise_cons.mp h with ⟨hy, hys⟩
    by_cases hxy : key x < key y
    · rw [insertionDesc, if_pos hxy]
      refine List.pairwise_cons.mpr ⟨?_, ih hys⟩
      intro z hz
      rcases (mem_insertionDesc key x z ys).mp hz with rfl | hz'
      · exact le_of_lt hxy
      · exact hy z hz'
    · rw [insertionDesc, if_neg hxy]
      refine List.pairwise_cons.mpr ⟨?_, h⟩
      intro z hz
      rcases List.mem_cons.mp hz with rfl | hz'
      · exact le_of_not_lt hxy
      · exact le_trans (hy z hz') (le_of_not_lt hxy)

theorem pairwise_pySortedDesc {α : Type} (key : α → ℚ) (l : List α) :
    (pySortedDesc key l).Pairwise (fun a b => key b ≤ key a) := by
  induction l with
  | nil => simp [pySortedDesc]
  | cons a t ih => exact pairwise_insertionDesc key a ih

theorem mem_pySortedDesc {α : Type} (key : α → ℚ) (l : List α) (z : α) :
    z ∈ pySortedDesc key l ↔ z ∈ l := by
  induction l with
  | nil => simp [pySortedDesc]
  | cons a t ih =>
    show z ∈ insertionDesc key a (pySortedDesc key t) ↔ _
    rw [mem_insertionDesc, ih, List.mem_cons]

theorem filter_insertionDesc {α : Type} (key : α → ℚ) (q : ℚ) (x : α) (l : List α) :
    (insertionDesc key x l).filter (fun z => decide (key z = q))
      = if key x = q then x :: l.filter (fun z => decide (key z = q))
        else l.filter (fun z => decide (key z = q)) := by
  induction l with
  | nil =>
    by_cases h : key x = q <;> simp [insertionDesc, h]
  | cons y ys ih =>
    by_cases hxy : key x < key y
    · rw [insertionDesc, if_pos hxy]
      by_cases hy : key y = q
      · have hx : ¬ key x = q := by
          intro hx
          rw [hx, hy] at hxy
          exact lt_irrefl q hxy
        simp [List.filter_cons, hy, hx, ih]
      · by_cases hx : key x = q <;> simp [List.filter_cons, hy, hx, ih]
    · rw [insertionDesc, if_neg hxy]
      by_cases hx : key x = q <;> simp [List.filter_cons, hx]

theorem filter_pySortedDesc {α : Type} (key : α → ℚ) (q : ℚ) (l : List α) :
    (pySortedDesc key l).filter (fun z => decide (key z = q))
      = l.filter (fun z => decide (key z = q)) := by
  induction l with
  | nil => rfl
  | cons a t ih =>
    show (insertionDesc key a (pySortedDesc key t)).filter _ = _
    rw [filter_insertionDesc, List.filter_cons]
    by_cases ha : key a = q <;> simp [ha, ih]

theorem pySortedDesc_eq_of_pairwise {α : Type} (key : α → ℚ) {l : List α}
    (h : l.Pairwise (fun a b => key b ≤ key a)) : pySortedDesc key l = l := by
  induction l with
  | nil => rfl
  | cons a t ih =>
    rcases List.pairwise_cons.mp h with ⟨ha, ht⟩
    show insertionDesc key a (pySortedDesc key t) = a :: t
    rw [ih ht]
    cases t with
    | nil => rfl
    | cons y ys =>
      rw [insertionDesc, if_neg (not_lt.mpr (ha y (List.mem_cons_self y ys)))]

/-!
## Claim theorems
-/

/-- C1: for every text, persona and job (and any external collaborators),
the composite relevance score is between 0 and 100 inclusive, the sum of the
four components being clamped to [0,100] before being returned. -/
theorem relevance_score_bounds (A : RelevanceAnalyzer) (text persona job : String) :
    0 ≤ calculate_semantic_relevance_multilingual A text persona job ∧
      calculate_semantic_relevance_multilingual A text persona job ≤ 100 := by
  constructor
  · unfold calculate_semantic_relevance_multilingual
    split
    · exact le_refl 0
    · exact le_min (by norm_num) (le_max_left _ _)
  · unfold calculate_semantic_relevance_multilingual
    split
    · norm_num
    · exact min_le_left _ _

/-- C2: for every persona and job, if the text is absent (empty) or its
trimmed length is strictly below 10 characters, the scoring function returns
exactly 0. -/
theorem score_zero_on_short_text (A : RelevanceAnalyzer) (text persona job : String)
    (h : text = "" ∨ (pyStrip text).length < 10) :
    calculate_semantic_relevance_multilingual A text persona job = 0 :=
  score_eq_zero_of_short persona job h

/-- Witness for C2 at the concrete text `"tiny"`. -/
theorem score_zero_on_short_text_witness :
    ("tiny" = "" ∨ (pyStrip "tiny").length < 10) ∧
      calculate_semantic_relevance_multilingual A0 "tiny" "researcher" "literature_review" = 0 :=
  ⟨Or.inr (by decide),
   score_zero_on_short_text A0 "tiny" "researcher" "literature_review" (Or.inr (by decide))⟩

/-- C7 (counterexample): the claim quantifies over texts with fewer than 10
non-whitespace characters, but the code tests the trimmed length instead.
The 10-character text `"a        b"` has 2 non-whitespace characters, yet its
trimmed length is 10, so the detection strategies are invoked: a `langdetect`
strategy returning `"fr"` makes the detector return `"fr"`, not `"en"`. -/
theorem detect_language_short_counterexample :
    nonWsCount "a        b" < 10 ∧
      detect_language { langdetect := some (fun _ => some "fr"), langid := none }
        "a        b" ≠ "en" := by
  constructor
  · decide
  · decide

/-- C7 (amended): for every input that is empty or whose whitespace-trimmed
length is strictly below 10, the language detector returns `"en"` without
invoking any detection strategy (the result is independent of both
strategies). -/
theorem detect_language_short_text_default (d : LangDetector) (text : String)
    (h : text = "" ∨ (pyStrip text).length < 10) : detect_language d text = "en" := by
  unfold detect_language
  rw [if_pos h]

/-- Witness for the amended C7 at the concrete text `"hi there"` with both
strategies present and disagreeing. -/
theorem detect_language_short_text_default_witness :
    ("hi there" = "" ∨ (pyStrip "hi there").length < 10) ∧
      detect_language
        { langdetect := some (fun _ => some "fr"), langid := some (fun _ => some "de") }
        "hi there" = "en" :=
  ⟨Or.inr (by decide),
   detect_language_short_text_default _ "hi there" (Or.inr (by decide))⟩

theorem dictUpdate_nil (l : List (String × ℚ)) : dictUpdate [] l = l := by
  unfold dictUpdate
  simp only [List.map_nil, List.nil_append]
  exact List.filter_eq_self.mpr (fun a _ => rfl)

theorem lookup_merged (pl jl : List (String × ℚ)) (k : String) :
    (dictUpdate (dictUpdate [] pl) jl).lookup k
      = match jl.lookup k with
        | some w => some w
        | none => pl.lookup k := by
  rw [dictUpdate_nil, lookup_dictUpdate]
  cases hp : pl.lookup k <;> cases hj : jl.lookup k <;> simp

/-- C8: for every persona, job and detected language, the merged keyword
table agrees (as a key-value map) with the persona's per-language map (with
English fallback) overridden by the job's per-language map (same fallback):
on every key, the job's weight wins when both maps carry the key. -/
theorem merged_keyword_table_spec (persona job language key : String) :
    (get_keywords_for_language persona job language).lookup key
      = match (job_language_keywords_spec job language).lookup key with
        | some w => some w
        | none => (persona_language_keywords_spec persona language).lookup key :=
  lookup_merged (persona_language_keywords_spec persona language)
    (job_language_keywords_spec job language) key

/-- C10: every serialized `subsection_analysis` entry has `language = "en"`,
whatever the language tags of the sections it was derived from: the
`Subsection` record built by `create_subsection_analysis_advanced` carries no
language key, and the serialization's `subsection.get('language', 'en')`
therefore always yields the default. -/
theorem subsection_analysis_language_en (A : RelevanceAnalyzer) (time_ok : Bool)
    (sections : List Section) (persona job : String) :
    (serialize_subsection_analysis A persona job
        (rank_and_filter_results_advanced sections
          (create_subsection_analysis_advanced A time_ok sections persona job)).2).all
      (fun entry => entry.language == "en") = true := by
  unfold serialize_subsection_analysis
  rw [List.all_eq_true]
  intro entry hentry
  rcases List.mem_map.mp hentry with ⟨sub, hsub, rfl⟩
  rfl

/-- C4: the ranking step sorts sections and subsections by relevance score
descending with a stable sort: `rank_and_filter_results_advanced` is the
filter-and-truncate of `pySortedDesc`, the sorted lists are pairwise
descending, and entries with any given score keep their input order. -/
theorem rank_sort_descending_stable (sections : List Section)
    (subsections : List Subsection) (q : ℚ) :
    rank_and_filter_results_advanced sections subsections
      = (((pySortedDesc (fun x => x.relevance_score) sections).filter
            (fun sec => decide (50 ≤ sec.content.length ∧ sec.content.length ≤ 2000))).take 10,
         ((pySortedDesc (fun x => x.relevance_score) subsections).filter
            (fun sub => decide (30 ≤ sub.refined_text.length ∧
              sub.refined_text.length ≤ 1000))).take 15)
    ∧ (pySortedDesc (fun x : Section => x.relevance_score) sections).Pairwise
        (fun a b => b.relevance_score ≤ a.relevance_score)
    ∧ (pySortedDesc (fun x : Section => x.relevance_score) sections).filter
        (fun x => decide (x.relevance_score = q))
        = sections.filter (fun x => decide (x.relevance_score = q))
    ∧ (pySortedDesc (fun x : Subsection => x.relevance_score) subsections).Pairwise
        (fun a b => b.relevance_score ≤ a.relevance_score)
    ∧ (pySortedDesc (fun x : Subsection => x.relevance_score) subsections).filter
        (fun x => decide (x.relevance_score = q))
        = subsections.filter (fun x => decide (x.relevance_score = q)) :=
  ⟨rfl, pairwise_pySortedDesc _ _, filter_pySortedDesc _ q _,
   pairwise_pySortedDesc _ _, filter_pySortedDesc _ q _⟩

theorem rank_component_fixed {α : Type} (key : α → ℚ) (p : α → Bool) (n : Nat)
    (l : List α) :
    ((pySortedDesc key (((pySortedDesc key l).filter p).take n)).filter p).take n
      = ((pySortedDesc key l).filter p).take n := by
  have hpw : (((pySortedDesc key l).filter p).take n).Pairwise
      (fun a b => key b ≤ key a) :=
    ((pairwise_pySortedDesc key l).sublist (List.filter_sublist _)).sublist
      (List.take_sublist _ _)
  rw [pySortedDesc_eq_of_pairwise key hpw]
  rw [List.filter_eq_self.mpr
    (fun a ha => List.of_mem_filter (List.mem_of_mem_take ha))]
  refine List.take_of_length_le ?_
  calc (((pySortedDesc key l).filter p).take n).length
      ≤ n := by simp [List.length_take]

/-- C5: the rank-and-filter operation is idempotent: applied to its own
output (top sections and top subsections), the sort, the content-length
filters and the truncation caps leave both lists unchanged. -/
theorem rank_and_filter_idempotent (sections : List Section)
    (subsections : List Subsection) :
    rank_and_filter_results_advanced
        (rank_and_filter_results_advanced sections subsections).1
        (rank_and_filter_results_advanced sections subsections).2
      = rank_and_filter_results_advanced sections subsections := by
  show (_, _) = (_, _)
  rw [Prod.mk.injEq]
  exact ⟨rank_component_fixed _ _ 10 sections, rank_component_fixed _ _ 15 subsections⟩

/-- C3: with the time budget not exceeded, section admission is exactly the
strict thresholds with the deliberate asymmetry: a heading-derived candidate
becomes a `Section` iff the score of heading text plus associated content is
strictly greater than 15, and a standalone body block iff its own score is
strictly greater than 20 (so a body block scoring exactly 20 is dropped). -/
theorem section_admission_thresholds (A : RelevanceAnalyzer) (content : DocContent)
    (persona job : String) :
    extract_relevant_sections_multilingual A true content persona job
      = content.pages.foldl
          (fun acc page_content =>
            acc
            ++ ((page_content.headings.filter (fun heading =>
                  decide (15 < calculate_semantic_relevance_multilingual A
                    (heading.text ++ " " ++ find_associated_content heading
                      page_content.body_text content.pages page_content.page_number)
                    persona job))).map
                (fun heading =>
                  { document := content.filename.getD "Unknown"
                    page := page_content.page_number
                    section_title := heading.text
                    content := find_associated_content heading page_content.body_text
                      content.pages page_content.page_number
                    relevance_score := pyRound2 (calculate_semantic_relevance_multilingual A
                      (heading.text ++ " " ++ find_associated_content heading
                        page_content.body_text content.pages page_content.page_number)
                      persona job)
                    font_size := heading.font_size
                    is_bold := heading.is_bold
                    language := heading.language }))
            ++ ((page_content.body_text.filter (fun text_block =>
                  decide (20 < calculate_semantic_relevance_multilingual A
                    text_block.text persona job))).map
                (fun text_block =>
                  { document := content.filename.getD "Unknown"
                    page := page_content.page_number
                    section_title := "Content from page " ++ toString page_content.page_number
                    content := text_block.text
                    relevance_score := pyRound2 (calculate_semantic_relevance_multilingual A
                      text_block.text persona job)
                    font_size := text_block.font_size
                    is_bold := text_block.is_bold
                    language := text_block.language })))
          [] := by
  unfold extract_relevant_sections_multilingual
  congr 1
  funext acc page_content
  rw [if_pos rfl, if_pos rfl]
  rw [filterMap_ite_eq_filter_map, filterMap_ite_eq_filter_map]

theorem selected_sentence_score {A : RelevanceAnalyzer} {persona job : String}
    {sentences : List String} {k : Nat} {x : String × ℚ}
    (hx : x ∈ ((pySortedDesc (fun y => y.2)
        (sentences.map (fun s =>
          (s, calculate_semantic_relevance_multilingual A s persona job)))).take k).filter
        (fun y => decide (20 < y.2))) :
    20 < calculate_semantic_relevance_multilingual A x.1 persona job := by
  have h2 : (20 : ℚ) < x.2 := by simpa using List.of_mem_filter hx
  have hmem : x ∈ sentences.map (fun s =>
      (s, calculate_semantic_relevance_multilingual A s persona job)) := by
    have hmem' := List.mem_of_mem_take (List.mem_of_mem_filter hx)
    rwa [mem_pySortedDesc] at hmem'
  rcases List.mem_map.mp hmem with ⟨s, _, rfl⟩
  exact h2

theorem selected_empty_of_all_low {A : RelevanceAnalyzer} {persona job : String}
    {sentences : List String} (k : Nat)
    (hall : ∀ s ∈ sentences,
      calculate_semantic_relevance_multilingual A s persona job ≤ 20) :
    ((pySortedDesc (fun y : String × ℚ => y.2)
        (sentences.map (fun s =>
          (s, calculate_semantic_relevance_multilingual A s persona job)))).take k).filter
      (fun y => decide (20 < y.2)) = [] := by
  rw [List.filter_eq_nil_iff]
  intro x hx
  have hmem : x ∈ sentences.map (fun s =>
      (s, calculate_semantic_relevance_multilingual A s persona job)) := by
    have hmem' := List.mem_of_mem_take hx
    rwa [mem_pySortedDesc] at hmem'
  rcases List.mem_map.mp hmem with ⟨s, hs, rfl⟩
  simpa using not_lt.mpr (hall s hs)

theorem string_ne_empty_length_pos {s : String} (h : s ≠ "") : 0 < s.length := by
  rcases Nat.eq_zero_or_pos s.length with h0 | hpos
  · exact absurd ((string_eq_empty_iff s).mpr (List.length_eq_zero.mp h0)) h
  · exact hpos

theorem pyJoin_ne_empty {sep a : String} (as : List String) (ha : a ≠ "") :
    pyJoin sep (a :: as) ≠ "" := by
  intro hc
  have hlen : a.length ≤ (pyJoin sep (a :: as)).length := length_pyJoin_cons sep a as
  rw [hc] at hlen
  exact absurd (Nat.le_zero.mp hlen) (Nat.pos_iff_ne_zero.mp (string_ne_empty_length_pos ha))

theorem pyJoin_selected_ne_empty {A : RelevanceAnalyzer} {persona job : String}
    {sentences : List String} {k : Nat} {sel : List String}
    (hsel : sel = (((pySortedDesc (fun y : String × ℚ => y.2)
        (sentences.map (fun s =>
          (s, calculate_semantic_relevance_multilingual A s persona job)))).take k).filter
        (fun y => decide (20 < y.2))).map Prod.fst)
    (hne : sel ≠ []) : pyJoin " " sel ≠ "" := by
  rcases List.exists_cons_of_ne_nil hne with ⟨b, rest, heq⟩
  have hbmem : b ∈ sel := heq ▸ List.mem_cons_self b rest
  rw [hsel] at hbmem
  rcases List.mem_map.mp hbmem with ⟨y, hyf, hy1⟩
  rw [heq]
  refine pyJoin_ne_empty rest ?_
  rw [← hy1]
  exact text_ne_empty_of_score_pos (lt_trans (by norm_num) (selected_sentence_score hyf))

/-- C6: for every non-empty content string, persona and job, content
refinement returns a non-empty string; moreover when no sentence scores
strictly above 20 the result is exactly the first 300 characters of the
original content. -/
theorem refine_content_nonempty (A : RelevanceAnalyzer) (content persona job : String)
    (h : content ≠ "") :
    refine_content_for_persona A content persona job ≠ ""
    ∧ ((∀ s ∈ A.sentTok content,
          calculate_semantic_relevance_multilingual A s persona job ≤ 20) →
        refine_content_for_persona A content persona job = pySlice content 300) := by
  constructor
  · simp only [refine_content_for_persona]
    generalize (if persona = "researcher" ∨ persona = "analyst" then (4 : Nat) else 3) = k
    split
    · exact pySlice_ne_empty h 300 (by norm_num)
    · next hne =>
      exact pyJoin_selected_ne_empty rfl (fun hn => hne (by rw [hn]; rfl))
  · intro hall
    simp only [refine_content_for_persona]
    rw [selected_empty_of_all_low _ hall]
    simp

/-- Witness for C6 at the concrete content `"some short content"`. -/
theorem refine_content_nonempty_witness :
    ("some short content" ≠ "")
      ∧ refine_content_for_persona A0 "some short content" "student" "exam_preparation" ≠ "" :=
  ⟨by decide,
   (refine_content_nonempty A0 "some short content" "student" "exam_preparation"
     (by decide)).1⟩

theorem foldl_add5_if_eq_filter_length (p : String → Bool) (l : List String) (c : ℚ) :
    l.foldl (fun acc s => if p s then acc + 5 else acc) c
      = c + 5 * ((l.filter p).length : ℚ) := by
  induction l generalizing c with
  | nil => simp
  | cons s t ih =>
    by_cases h : p s
    · simp only [List.foldl_cons, List.filter_cons, h, if_true, ih, List.length_cons]
      push_cast
      ring
    · simp only [List.foldl_cons, List.filter_cons, h, if_false, ih]
      simp [h]

/-- C9: on the scenario text with persona researcher and job
literature_review, when the detector reports English and the embedding
component contributes 0, the keyword component is strictly positive, the
structural component gains +5 for the matched token "methodology", and the
final composite score strictly exceeds the heading admission threshold 15. -/
theorem methodology_scenario (A : RelevanceAnalyzer)
    (hdet : detect_language A.detector methodology_text = "en")
    (hmodel : A.sentenceModel = none) :
    0 < keyword_component
        (get_keywords_for_language "researcher" "literature_review" "en")
        (pyLower methodology_text)
    ∧ pyInStr "methodology" (pyLower methodology_text) = true
    ∧ calculate_structure_score (pyLower methodology_text) "en" = 5
    ∧ 15 < calculate_semantic_relevance_multilingual A methodology_text
        "researcher" "literature_review" := by
  have hKW : get_keywords_for_language "researcher" "literature_review" "en"
      = [("methodology", (8 : ℚ)), ("hypothesis", 9), ("experiment", 9), ("analysis", 8),
         ("findings", 8), ("conclusion", 8), ("literature review", 10), ("data", 7),
         ("statistics", 8), ("results", 8), ("discussion", 8), ("research question", 9),
         ("sampling", 7), ("variables", 7), ("correlation", 8), ("significance", 8),
         ("peer review", 9), ("citation", 7), ("references", 7), ("abstract", 8),
         ("background", 7), ("objectives", 8), ("limitations", 7), ("future work", 7),
         ("literature", 10), ("review", 9), ("research", 8), ("study", 8),
         ("paper", 7), ("publication", 7), ("existing work", 8), ("previous research", 8),
         ("gap", 8), ("contribution", 7)] := by rfl
  have hfil : (get_keywords_for_language "researcher" "literature_review" "en").filter
      (fun kv => pyInStr kv.1 (pyLower methodology_text))
      = [("methodology", (8 : ℚ)), ("experiment", 9), ("analysis", 8), ("study", 8)] := by
    rfl
  have hkc : keyword_component
      (get_keywords_for_language "researcher" "literature_review" "en")
      (pyLower methodology_text) = 44/9 := by
    simp only [keyword_component]
    rw [foldl_add_if_eq_filter_sum, foldl_add_eq_sum, hfil, hKW]
    norm_num [List.sum_cons, List.sum_nil, List.isEmpty]
  have hsec : ((SECTION_KEYWORDS.lookup "en").getD ((SECTION_KEYWORDS.lookup "en").getD []))
      = ["introduction", "methodology", "results", "discussion", "conclusion"] := by rfl
  have hsfil : (["introduction", "methodology", "results", "discussion", "conclusion"].filter
      (fun sec => pyInStr sec (pyLower methodology_text))) = ["methodology"] := by rfl
  have hss : calculate_structure_score (pyLower methodology_text) "en" = 5 := by
    simp only [calculate_structure_score]
    rw [hsec, foldl_add5_if_eq_filter_length, hsfil]
    norm_num
  have hq : calculate_quality_score A methodology_text "en" "researcher"
      = 5 + (if 1 ≤ (A.sentTok methodology_text).length ∧
              (A.sentTok methodology_text).length ≤ 5 then (3 : ℚ) else 0) + 2 := by
    unfold calculate_quality_score
    rw [if_pos (show 50 ≤ methodology_text.length ∧ methodology_text.length ≤ 500 by decide)]
    rw [if_pos (show ("researcher" = "researcher" ∨ "researcher" = "developer" ∨
        "researcher" = "analyst")
        ∧ ((TECHNICAL_TERMS.lookup "en").getD ((TECHNICAL_TERMS.lookup "en").getD [])).any
            (fun term => pyInStr term (pyLower methodology_text)) = true by decide)]
  have hcond : ¬(methodology_text = "" ∨ (pyStrip methodology_text).length < 10) := by decide
  have hsem : ∀ r, semantic_component A methodology_text r = 0 := by
    intro r
    unfold semantic_component
    rw [hmodel]
  refine ⟨by rw [hkc]; norm_num, by rfl, hss, ?_⟩
  simp only [calculate_semantic_relevance_multilingual]
  rw [if_neg hcond, hdet, hsem, hkc, hss, hq]
  set b := if 1 ≤ (A.sentTok methodology_text).length ∧
      (A.sentTok methodology_text).length ≤ 5 then (3 : ℚ) else 0 with hb
  have hb0 : 0 ≤ b := by
    rw [hb]
    split <;> norm_num
  refine lt_of_lt_of_le (lt_min (by norm_num) ?_)
    (min_le_min (le_refl 100) (le_max_right _ _))
  nlinarith [hb0]

/-- Witness for C9: a concrete analyzer whose `langdetect` strategy reports
English and whose sentence model is absent. -/
theorem methodology_scenario_witness :
    detect_language A0.detector methodology_text = "en"
    ∧ 15 < calculate_semantic_relevance_multilingual A0 methodology_text
        "researcher" "literature_review" :=
  ⟨by rfl, (methodology_scenario A0 (by rfl) rfl).2.2.2⟩
